import Mathlib

/-!
Shallow embedding of the Meow streaming-site service worker
(service-worker.js) in Lean 4, together with proofs about its
request classifier, its three caching strategies (cache-first,
network-first, stale-while-revalidate), its count-based eviction
(manageCacheSize) and its periodic age sweep (performPeriodicCleanup).

Modelling conventions:
- URLs and header values are Lean Strings; JS regular-expression tests
  are modelled as suffix / substring tests over the character data of
  those strings (the regexes in the source are all of the shape
  "end-anchored literal" or "bare literal substring").
- A cache partition is a list of (key, response) pairs in insertion
  order; the key of an entry is the request URL, which is how the
  Cache API keys entries for same-URL GET requests.  cache.put on an
  existing key replaces the entry (delete old entry, append new).
- fetch is modelled as a function from a URL to either a response
  (the promise resolved, with an ok or non-ok status) or a failure
  message (the promise rejected).
- A strategy returns an Outcome: a response, a rejection carrying the
  error message, or noResponse for a promise that resolved with the
  JS value undefined.
- Broadcast messages keep the type, message and url arguments of
  broadcastMessage; the timestamp and the auxiliary data argument are
  dropped (no claim mentions them).
- The date header of a stored response is modelled as an optional
  integer millisecond timestamp: none stands for an absent header
  (an unparseable header behaves identically in the source, because
  comparisons against NaN are false).
-/

namespace MeowSW

/-- Appends the character-level lowercase of a string (models JS
case-insensitive regex tests, whose patterns here are ASCII). -/
def lowerStr (s : String) : String := ⟨s.data.map Char.toLower⟩

/-- Character-level uppercase of a string (models JS toUpperCase on
the ASCII partition names). -/
def upperStr (s : String) : String := ⟨s.data.map Char.toUpper⟩

/-- Models an end-anchored JS regex test such as /\.json$/.test(s). -/
def strEndsWith (s pat : String) : Bool := decide (pat.data <:+ s.data)

/-- Models a bare-literal JS regex test such as /video/.test(s). -/
def strContains (s pat : String) : Bool := decide (pat.data <:+: s.data)

/-- Models JS String.startsWith, used for the protocol guard. -/
def strStartsWith (s pat : String) : Bool := decide (pat.data <+: s.data)

/-- Splits a character list at every occurrence of the separator;
models JS String.split with a single-character separator. -/
def splitOnChar (sep : Char) : List Char → List (List Char)
  | [] => [[]]
  | c :: cs =>
    let r := splitOnChar sep cs
    if c = sep then [] :: r
    else match r with
      | [] => [[c]]
      | g :: gs => (c :: g) :: gs

/-- Models cacheName.split(the dash character) from manageCacheSize. -/
def jsSplitDash (s : String) : List String :=
  (splitOnChar '-' s.data).map (fun l => ⟨l⟩)

/-- A captured response: ok status flag, content-type header,
parsed date header (milliseconds, none when absent), and body text. -/
structure Response where
  ok : Bool
  contentType : Option String
  dateHeader : Option Int
  body : String
deriving DecidableEq, Repr

/-- The result of a fetch call: the promise resolved with a response,
or rejected with an error message. -/
inductive NetResult where
  | success (r : Response)
  | failure (msg : String)
deriving DecidableEq, Repr

/-- A network environment: what fetch returns for each URL. -/
abbrev Net := String → NetResult

/-- What a strategy promise finally does for its caller:
resolve with a response, resolve with the JS value undefined,
or reject with an error message. -/
inductive Outcome where
  | response (r : Response)
  | noResponse
  | rejected (msg : String)
deriving DecidableEq, Repr

/-- True exactly when the outcome is a rejected promise. -/
def Outcome.isRejected : Outcome → Bool
  | .rejected _ => true
  | _ => false

/-- A broadcast message: type tag, message text and optional URL
(the timestamp and aux-data fields of broadcastMessage are dropped). -/
structure Msg where
  type : String
  message : String
  url : Option String
deriving DecidableEq, Repr

/-- One cache partition: entries as (request URL, response) pairs in
insertion order, the order cache.keys() reports. -/
abbrev Partition := List (String × Response)

/-- An intercepted request: method, protocol (with trailing colon, as
in JS url.protocol), host name, path name, search string (query,
including the question mark, empty when absent) and accept header. -/
structure Request where
  method : String
  protocol : String
  host : String
  pathname : String
  search : String
  accept : Option String
deriving DecidableEq, Repr

/-- Serialized request URL, as request.url exposes it for an http(s)
URL without port, credentials or fragment. -/
def Request.url (r : Request) : String :=
  r.protocol ++ "//" ++ r.host ++ r.pathname ++ r.search

/-- const CACHE_VERSION = '1010250100'. -/
def CACHE_VERSION : String := "1010250100"

/-- CACHE_NAMES.STATIC. -/
def CACHE_NAMES_STATIC : String := "meow-static-" ++ CACHE_VERSION

/-- CACHE_NAMES.DYNAMIC. -/
def CACHE_NAMES_DYNAMIC : String := "meow-dynamic-" ++ CACHE_VERSION

/-- CACHE_NAMES.IMAGES. -/
def CACHE_NAMES_IMAGES : String := "meow-images-" ++ CACHE_VERSION

/-- CACHE_NAMES.JSON. -/
def CACHE_NAMES_JSON : String := "meow-json-" ++ CACHE_VERSION

/-- CACHE_NAMES.FONTS. -/
def CACHE_NAMES_FONTS : String := "meow-fonts-" ++ CACHE_VERSION

/-- DYNAMIC_CACHE_PATTERNS.some(p => p.test(s)) for the regex list
[/\.html$/, /\.css$/, /\.js$/, /master_.*\.json$/].  The last regex
holds of s when s ends in ".json" and "master_" occurs inside the
part of s before that final ".json". -/
def DYNAMIC_CACHE_PATTERNS (s : String) : Bool :=
  strEndsWith s ".html" || strEndsWith s ".css" || strEndsWith s ".js" ||
    (strContains ⟨s.data.take (s.data.length - 5)⟩ "master_" && strEndsWith s ".json")

/-- The case-insensitive end-anchored extension alternative of
IMAGE_CACHE_PATTERNS: /\.(jpg|jpeg|png|gif|webp|svg|ico)$/i. -/
def imageExtTest (s : String) : Bool :=
  [".jpg", ".jpeg", ".png", ".gif", ".webp", ".svg", ".ico"].any
    (fun p => strEndsWith (lowerStr s) p)

/-- IMAGE_CACHE_PATTERNS.some(p => p.test(s)) for the regex list
[/\.(jpg|jpeg|png|gif|webp|svg|ico)$/i, /share_image_url/, /placeholder/]. -/
def IMAGE_CACHE_PATTERNS (s : String) : Bool :=
  imageExtTest s || strContains s "share_image_url" || strContains s "placeholder"

/-- JSON_CACHE_PATTERNS.some(p => p.test(s)) for [/\.json$/, /master_/]. -/
def JSON_CACHE_PATTERNS (s : String) : Bool :=
  strEndsWith s ".json" || strContains s "master_"

/-- EXTERNAL_CACHE_PATTERNS.some(p => p.test(h)) for the four
third-party host regexes (literal substring tests on the hostname). -/
def EXTERNAL_CACHE_PATTERNS (h : String) : Bool :=
  strContains h "fonts.googleapis.com" || strContains h "fonts.gstatic.com" ||
    strContains h "cdnjs.cloudflare.com" || strContains h "cdn.jsdelivr.net"

/-- NETWORK_FIRST_PATTERNS.some(p => p.test(s)) for
[/\.m3u8$/, /\.ts$/, /\.mp4$/, /\.webm$/, /video/]. -/
def NETWORK_FIRST_PATTERNS (s : String) : Bool :=
  strEndsWith s ".m3u8" || strEndsWith s ".ts" || strEndsWith s ".mp4" ||
    strEndsWith s ".webm" || strContains s "video"

/-- CACHE_LIMITS as a lookup from the upper-cased middle name token. -/
def CACHE_LIMITS (k : String) : Option Nat :=
  if k = "IMAGES" then some 5000
  else if k = "JSON" then some 5000
  else if k = "DYNAMIC" then some 50
  else none

/-- The limit computation of manageCacheSize:
CACHE_LIMITS[cacheName.split(dash)[1]?.toUpperCase()] || 50. -/
def cacheLimit (cacheName : String) : Nat :=
  (((jsSplitDash cacheName)[1]?.map upperStr).bind CACHE_LIMITS).getD 50

/-- cache.match(request): the stored response for the request URL. -/
def cacheMatch (c : Partition) (k : String) : Option Response :=
  (c.find? (fun e => e.1 == k)).map (fun e => e.2)

/-- cache.delete(request): removes the entry stored under the key. -/
def cacheDelete (c : Partition) (k : String) : Partition :=
  c.filter (fun e => decide (e.1 ≠ k))

/-- cache.put(request, response): replaces any entry under the key and
appends the new entry at the end of the insertion order. -/
def cachePut (c : Partition) (k : String) (v : Response) : Partition :=
  cacheDelete c k ++ [(k, v)]

/-- manageCacheSize(cache, cacheName): when the entry count exceeds the
configured limit, deletes the first (oldest) count-minus-limit keys. -/
def manageCacheSize (c : Partition) (cacheName : String) : Partition :=
  let limit := cacheLimit cacheName
  let keys := c.map Prod.fst
  if keys.length > limit then
    let deleteCount := keys.length - limit
    let keysToDelete := keys.take deleteCount
    keysToDelete.foldl cacheDelete c
  else c

/-- The synthesized placeholder graphic returned by cacheFirstStrategy
for image-pattern URLs when the request fails: a 200 response with
content-type image/svg+xml. -/
def placeholderImage : Response :=
  { ok := true
    contentType := some "image/svg+xml"
    dateHeader := none
    body := "<svg xmlns=\"http://www.w3.org/2000/svg\" width=\"300\" height=\"400\" viewBox=\"0 0 300 400\"><rect width=\"300\" height=\"400\" fill=\"#1a1a1a\"/><text x=\"150\" y=\"200\" text-anchor=\"middle\" fill=\"#666\" font-family=\"Arial\" font-size=\"16\">Image Unavailable</text></svg>" }

/-- The synthesized minimal offline document returned by
networkFirstStrategy for HTML-accepting requests when the network is
down and no fallback entry exists; whitespace of the source template
literal is condensed to one line. -/
def offlineHtmlPage : Response :=
  { ok := true
    contentType := some "text/html"
    dateHeader := none
    body := "<!DOCTYPE html><html><head><title>Offline - Meow</title><style>body \x7b font-family: Arial; text-align: center; padding: 50px; background: #0a0a0a; color: white; \x7d .offline \x7b font-size: 48px; margin-bottom: 20px; \x7d</style></head><body><div class=\"offline\">Phone</div><h1>You\x27re Offline</h1><p>Check your connection and try again</p></body></html>" }

/-- request.headers.get(accept)?.includes(text/html). -/
def acceptsHtml (req : Request) : Bool :=
  match req.accept with
  | some a => strContains a "text/html"
  | none => false

/-- The result of a strategy call on one partition: the caller-visible
outcome, the updated partition, and the broadcast messages sent. -/
structure StratResult where
  outcome : Outcome
  part : Partition
  msgs : List Msg
deriving DecidableEq, Repr

/-- updateInBackground(request, cache): refetch, store when the
response is ok (without any eviction pass), broadcast CACHE_UPDATED;
failures are silent. -/
def updateInBackground (net : Net) (c : Partition) (url : String) :
    Partition × List Msg :=
  match net url with
  | .success nr =>
    if nr.ok then
      (cachePut c url nr, [⟨"CACHE_UPDATED", "Background update completed", some url⟩])
    else (c, [])
  | .failure _ => (c, [])

/-- cacheFirstStrategy(request, cacheName).  Cached entry: return it and
run the background update.  Miss: fetch; ok response: store, run
manageCacheSize, broadcast CACHE_UPDATED; non-ok response: return it
unstored.  Fetch rejection reaches the catch block, which broadcasts
CACHE_ERROR and returns the placeholder when the full request URL
matches an image pattern, otherwise rethrows. -/
def cacheFirstStrategy (net : Net) (c : Partition) (req : Request)
    (cacheName : String) : StratResult :=
  match cacheMatch c req.url with
  | some cr =>
    let bg := updateInBackground net c req.url
    ⟨.response cr, bg.1, bg.2⟩
  | none =>
    match net req.url with
    | .success nr =>
      if nr.ok then
        ⟨.response nr, manageCacheSize (cachePut c req.url nr) cacheName,
          [⟨"CACHE_UPDATED", "Resource cached", some req.url⟩]⟩
      else ⟨.response nr, c, []⟩
    | .failure m =>
      if IMAGE_CACHE_PATTERNS req.url then
        ⟨.response placeholderImage, c, [⟨"CACHE_ERROR", m, some req.url⟩]⟩
      else ⟨.rejected m, c, [⟨"CACHE_ERROR", m, some req.url⟩]⟩

/-- networkFirstStrategy(request).  A resolved fetch is returned to the
caller unmodified, ok or not, and nothing is written.  A rejected
fetch falls back to the dynamic partition: a stored entry is returned
with an OFFLINE_FALLBACK broadcast; otherwise an HTML-accepting
request gets the synthesized offline page; otherwise the error is
rethrown. -/
def networkFirstStrategy (net : Net) (dynPart : Partition) (req : Request) :
    Outcome × List Msg :=
  match net req.url with
  | .success nr => (.response nr, [])
  | .failure m =>
    match cacheMatch dynPart req.url with
    | some cr => (.response cr, [⟨"OFFLINE_FALLBACK", "Serving cached version", some req.url⟩])
    | none =>
      if acceptsHtml req then (.response offlineHtmlPage, [])
      else (.rejected m, [])

/-- staleWhileRevalidateStrategy(request, cacheName).  The cached entry,
when present, is returned immediately; the network refresh stores an
ok response (with an eviction pass) and broadcasts CONTENT_UPDATED
when the body changed or CACHE_UPDATED when no entry existed.  When
the fetch rejects, the catch broadcasts CACHE_ERROR and resolves the
network promise with the cached value; with no cached value the
caller therefore receives a promise resolved with undefined. -/
def staleWhileRevalidateStrategy (net : Net) (c : Partition) (req : Request)
    (cacheName : String) : StratResult :=
  let cached := cacheMatch c req.url
  match net req.url with
  | .success nr =>
    if nr.ok then
      let c2 := manageCacheSize (cachePut c req.url nr) cacheName
      match cached with
      | some cr =>
        ⟨.response cr, c2,
          if cr.body ≠ nr.body then [⟨"CONTENT_UPDATED", "Content updated", some req.url⟩]
          else []⟩
      | none =>
        ⟨.response nr, c2, [⟨"CACHE_UPDATED", "New content cached", some req.url⟩]⟩
    else
      match cached with
      | some cr => ⟨.response cr, c, []⟩
      | none => ⟨.response nr, c, []⟩
  | .failure m =>
    match cached with
    | some cr => ⟨.response cr, c, [⟨"CACHE_ERROR", m, some req.url⟩]⟩
    | none => ⟨.noResponse, c, [⟨"CACHE_ERROR", m, some req.url⟩]⟩

/-- The six resource classes the fetch listener distinguishes, in its
test order; noMatch is the final else branch. -/
inductive ResourceClass where
  | streamingMedia
  | image
  | structuredData
  | externalAsset
  | dynamicDocument
  | noMatch
deriving DecidableEq, Repr

/-- The routing chain of the fetch listener: network-first patterns on
pathname plus search, then image patterns on pathname plus search,
then JSON patterns on the pathname, then external patterns on the
hostname, then dynamic patterns on the pathname; first match wins. -/
def classify (r : Request) : ResourceClass :=
  if NETWORK_FIRST_PATTERNS (r.pathname ++ r.search) then .streamingMedia
  else if IMAGE_CACHE_PATTERNS (r.pathname ++ r.search) then .image
  else if JSON_CACHE_PATTERNS r.pathname then .structuredData
  else if EXTERNAL_CACHE_PATTERNS r.host then .externalAsset
  else if DYNAMIC_CACHE_PATTERNS r.pathname then .dynamicDocument
  else .noMatch

/-- The strategy (and target partition) each branch of the fetch
listener dispatches to. -/
inductive Strategy where
  | networkFirst
  | cacheFirst (cacheName : String)
  | staleWhileRevalidate (cacheName : String)
deriving DecidableEq, Repr

/-- Which strategy each resource class is handled by, straight from the
respondWith calls of the listener. -/
def routeOf : ResourceClass → Strategy
  | .streamingMedia => .networkFirst
  | .image => .cacheFirst CACHE_NAMES_IMAGES
  | .structuredData => .staleWhileRevalidate CACHE_NAMES_JSON
  | .externalAsset => .cacheFirst CACHE_NAMES_FONTS
  | .dynamicDocument => .staleWhileRevalidate CACHE_NAMES_DYNAMIC
  | .noMatch => .networkFirst

/-- The five live partitions of the store, one per cache name. -/
structure Store where
  statPart : Partition
  dynPart : Partition
  imgPart : Partition
  jsonPart : Partition
  fontPart : Partition
deriving DecidableEq, Repr

/-- The result of handling one intercepted request: the outcome given
to respondWith, the store after all side effects, and the broadcasts. -/
structure HandleResult where
  outcome : Outcome
  store : Store
  msgs : List Msg
deriving DecidableEq, Repr

/-- The routed dispatch of the fetch listener, with each strategy
reading and writing the partition its branch names. -/
def handleRequest (net : Net) (s : Store) (req : Request) : HandleResult :=
  match classify req with
  | .streamingMedia =>
    let r := networkFirstStrategy net s.dynPart req
    ⟨r.1, s, r.2⟩
  | .image =>
    let r := cacheFirstStrategy net s.imgPart req CACHE_NAMES_IMAGES
    ⟨r.outcome, { s with imgPart := r.part }, r.msgs⟩
  | .structuredData =>
    let r := staleWhileRevalidateStrategy net s.jsonPart req CACHE_NAMES_JSON
    ⟨r.outcome, { s with jsonPart := r.part }, r.msgs⟩
  | .externalAsset =>
    let r := cacheFirstStrategy net s.fontPart req CACHE_NAMES_FONTS
    ⟨r.outcome, { s with fontPart := r.part }, r.msgs⟩
  | .dynamicDocument =>
    let r := staleWhileRevalidateStrategy net s.dynPart req CACHE_NAMES_DYNAMIC
    ⟨r.outcome, { s with dynPart := r.part }, r.msgs⟩
  | .noMatch =>
    let r := networkFirstStrategy net s.dynPart req
    ⟨r.1, s, r.2⟩

/-- The guards of the fetch listener: non-GET methods and non-http
protocols are not intercepted (none); everything else is routed. -/
def handleFetchEvent (net : Net) (s : Store) (req : Request) :
    Option HandleResult :=
  if req.method ≠ "GET" then none
  else if ¬ strStartsWith req.protocol "http" then none
  else some (handleRequest net s req)

/-- One URL of handlePrefetchResources: fetch it; when the response is
ok, choose the partition by testing image then JSON patterns on the
URL string and put the entry there, with no eviction pass; failures
are silent. -/
def prefetchOne (net : Net) (s : Store) (url : String) : Store :=
  match net url with
  | .failure _ => s
  | .success r =>
    if r.ok then
      if IMAGE_CACHE_PATTERNS url then { s with imgPart := cachePut s.imgPart url r }
      else if JSON_CACHE_PATTERNS url then { s with jsonPart := cachePut s.jsonPart url r }
      else { s with dynPart := cachePut s.dynPart url r }
    else s

/-- handlePrefetchResources(urls): prefetch each URL in order, then
broadcast one CACHE_UPDATED summary. -/
def handlePrefetchResources (net : Net) (s : Store) (urls : List String) :
    Store × List Msg :=
  (urls.foldl (prefetchOne net) s,
    [⟨"CACHE_UPDATED", "Prefetched " ++ toString urls.length ++ " resources", none⟩])

/-- The expiry test of the cleanup loop, folding its two nested ifs:
the date header is present (parseable) and parses to a time before
the cutoff. -/
def isExpired (sevenDaysAgo : Int) (r : Response) : Bool :=
  match r.dateHeader with
  | some d => decide (d < sevenDaysAgo)
  | none => false

/-- One step of the age-sweep loop of performPeriodicCleanup: look the
key up, and delete the entry when its date header parses to a time
before the cutoff. -/
def sweepStep (sevenDaysAgo : Int) (acc : Partition) (k : String) : Partition :=
  match cacheMatch acc k with
  | some r => if isExpired sevenDaysAgo r then cacheDelete acc k else acc
  | none => acc

/-- The age-sweep loop of performPeriodicCleanup over one partition:
iterate over the listed keys and delete every entry older than the
cutoff; entries without a date header are never touched. -/
def sweepAge (sevenDaysAgo : Int) (c : Partition) : Partition :=
  (c.map Prod.fst).foldl (sweepStep sevenDaysAgo) c

/-- performPeriodicCleanup on one partition: the count-limit pass
(manageCacheSize) followed by the age sweep with the seven-day
cutoff.  The source runs the first pass over all partitions before
the second, which coincides with this per-partition composition
because partitions are independent. -/
def cleanupPartition (now : Int) (cacheName : String) (c : Partition) : Partition :=
  sweepAge (now - 7 * 24 * 60 * 60 * 1000) (manageCacheSize c cacheName)

/-- performPeriodicCleanup at time now over the whole store. -/
def performPeriodicCleanup (now : Int) (s : Store) : Store :=
  { statPart := cleanupPartition now CACHE_NAMES_STATIC s.statPart
    dynPart := cleanupPartition now CACHE_NAMES_DYNAMIC s.dynPart
    imgPart := cleanupPartition now CACHE_NAMES_IMAGES s.imgPart
    jsonPart := cleanupPartition now CACHE_NAMES_JSON s.jsonPart
    fontPart := cleanupPartition now CACHE_NAMES_FONTS s.fontPart }

/-! ### Basic lemmas about the string testers -/

theorem strEndsWith_append_left (a b p : String)
    (h : strEndsWith b p = true) : strEndsWith (a ++ b) p = true := by
  simp only [strEndsWith, decide_eq_true_eq] at h ⊢
  rw [String.data_append]
  exact h.trans (List.suffix_append a.data b.data)

theorem strContains_append_left (a b p : String)
    (h : strContains b p = true) : strContains (a ++ b) p = true := by
  simp only [strContains, decide_eq_true_eq] at h ⊢
  rw [String.data_append]
  exact h.trans (List.suffix_append a.data b.data).isInfix

theorem lowerStr_append (a b : String) :
    (lowerStr (a ++ b)).data = (lowerStr a).data ++ (lowerStr b).data := by
  simp [lowerStr, String.data_append]

theorem imageExtTest_append_left (a b : String)
    (h : imageExtTest b = true) : imageExtTest (a ++ b) = true := by
  simp only [imageExtTest, List.any_eq_true] at h ⊢
  obtain ⟨p, hp, hs⟩ := h
  refine ⟨p, hp, ?_⟩
  simp only [strEndsWith, decide_eq_true_eq] at hs ⊢
  rw [lowerStr_append]
  exact hs.trans (List.suffix_append _ _)

theorem IMAGE_CACHE_PATTERNS_append_left (a b : String)
    (h : IMAGE_CACHE_PATTERNS b = true) : IMAGE_CACHE_PATTERNS (a ++ b) = true := by
  simp only [IMAGE_CACHE_PATTERNS, Bool.or_eq_true] at h ⊢
  rcases h with (h | h) | h
  · exact Or.inl (Or.inl (imageExtTest_append_left a b h))
  · exact Or.inl (Or.inr (strContains_append_left a b _ h))
  · exact Or.inr (strContains_append_left a b _ h)

/-- A request classified as image by the listener (image patterns on
pathname plus search) also matches the image patterns tested against
the full request URL in the catch block of cacheFirstStrategy. -/
theorem IMAGE_CACHE_PATTERNS_url_of_pathSearch (req : Request)
    (h : IMAGE_CACHE_PATTERNS (req.pathname ++ req.search) = true) :
    IMAGE_CACHE_PATTERNS req.url = true := by
  have : req.url = (req.protocol ++ "//" ++ req.host) ++ (req.pathname ++ req.search) := by
    simp [Request.url, String.ext_iff, String.data_append, List.append_assoc]
  rw [this]
  exact IMAGE_CACHE_PATTERNS_append_left _ _ h

/-! ### Lemmas about the cache primitives -/

theorem mem_cacheDelete {c : Partition} {k : String} {e : String × Response} :
    e ∈ cacheDelete c k ↔ e ∈ c ∧ e.1 ≠ k := by
  simp [cacheDelete, List.mem_filter]

theorem cacheDelete_cons_self {e : String × Response} {c : Partition}
    (h : e.1 ∉ c.map Prod.fst) : cacheDelete (e :: c) e.1 = c := by
  simp only [cacheDelete, List.filter_cons]
  rw [if_neg (by simp)]
  exact List.filter_eq_self.mpr (fun x hx => by
    simp only [decide_eq_true_eq]
    intro hxk
    exact h (hxk ▸ List.mem_map_of_mem Prod.fst hx))

theorem cacheDelete_cons_ne {e : String × Response} {c : Partition} {k : String}
    (h : e.1 ≠ k) : cacheDelete (e :: c) k = e :: cacheDelete c k := by
  simp [cacheDelete, List.filter_cons, h]

theorem cacheMatch_cons_self (e : String × Response) (c : Partition) :
    cacheMatch (e :: c) e.1 = some e.2 := by
  simp [cacheMatch, List.find?_cons_of_pos]

theorem cacheMatch_cons_ne {e : String × Response} {c : Partition} {k : String}
    (h : e.1 ≠ k) : cacheMatch (e :: c) k = cacheMatch c k := by
  simp only [cacheMatch]
  rw [List.find?_cons_of_neg]
  simpa using h

theorem cacheMatch_eq_none {c : Partition} {k : String} :
    cacheMatch c k = none ↔ ∀ e ∈ c, e.1 ≠ k := by
  simp [cacheMatch, List.find?_eq_none]

/-- Keys of a deleted partition form a sublist of the original keys. -/
theorem keys_cacheDelete_sublist (c : Partition) (k : String) :
    List.Sublist ((cacheDelete c k).map Prod.fst) (c.map Prod.fst) :=
  (List.filter_sublist c).map Prod.fst

theorem keys_nodup_cacheDelete {c : Partition} (k : String)
    (h : (c.map Prod.fst).Nodup) : ((cacheDelete c k).map Prod.fst).Nodup :=
  h.sublist (keys_cacheDelete_sublist c k)

theorem not_mem_keys_cacheDelete (c : Partition) (k : String) :
    k ∉ (cacheDelete c k).map Prod.fst := by
  intro hk
  obtain ⟨e, he, hek⟩ := List.mem_map.mp hk
  exact (mem_cacheDelete.mp he).2 hek

theorem keys_nodup_cachePut {c : Partition} (k : String) (v : Response)
    (h : (c.map Prod.fst).Nodup) : ((cachePut c k v).map Prod.fst).Nodup := by
  simp only [cachePut, List.map_append, List.map_cons, List.map_nil]
  rw [List.nodup_append]
  refine ⟨keys_nodup_cacheDelete k h, List.nodup_singleton k, ?_⟩
  intro x hx hx'
  simp only [List.mem_singleton] at hx'
  exact not_mem_keys_cacheDelete c k (hx' ▸ hx)

theorem length_cachePut_of_not_mem {c : Partition} {k : String} (v : Response)
    (h : cacheMatch c k = none) : (cachePut c k v).length = c.length + 1 := by
  have : cacheDelete c k = c := by
    refine List.filter_eq_self.mpr (fun e he => ?_)
    simp only [decide_eq_true_eq]
    exact cacheMatch_eq_none.mp h e he
  simp [cachePut, this]

/-! ### The eviction pass deletes exactly the oldest entries -/

/-- Deleting the first n listed keys of a partition with distinct keys
drops exactly its first n entries. -/
theorem foldl_cacheDelete_take :
    ∀ (c : Partition) (n : Nat), (c.map Prod.fst).Nodup →
      ((c.map Prod.fst).take n).foldl cacheDelete c = c.drop n := by
  intro c
  induction c with
  | nil => intro n _; simp
  | cons e c ih =>
    intro n hnd
    simp only [List.map_cons, List.nodup_cons] at hnd
    cases n with
    | zero => simp
    | succ n =>
      simp only [List.map_cons, List.take_succ_cons, List.foldl_cons,
        List.drop_succ_cons]
      rw [cacheDelete_cons_self hnd.1]
      exact ih n hnd.2

/-- On a partition with distinct keys, manageCacheSize drops exactly
the entries past the limit, oldest first. -/
theorem manageCacheSize_eq_drop (c : Partition) (cacheName : String)
    (h : (c.map Prod.fst).Nodup) :
    manageCacheSize c cacheName = c.drop (c.length - cacheLimit cacheName) := by
  unfold manageCacheSize
  by_cases hgt : (c.map Prod.fst).length > cacheLimit cacheName
  · rw [if_pos hgt]
    simpa [List.length_map] using foldl_cacheDelete_take c (c.length - cacheLimit cacheName) h
  · rw [if_neg hgt]
    rw [List.length_map] at hgt
    rw [Nat.sub_eq_zero_of_le (Nat.le_of_not_lt hgt), List.drop_zero]

theorem length_manageCacheSize (c : Partition) (cacheName : String)
    (h : (c.map Prod.fst).Nodup) :
    (manageCacheSize c cacheName).length = min c.length (cacheLimit cacheName) := by
  rw [manageCacheSize_eq_drop c cacheName h, List.length_drop]
  omega

/-! ### The age sweep is a filter on the date header -/

theorem sweepStep_cons_ne (cut : Int) {e : String × Response} {acc : Partition}
    {k : String} (h : e.1 ≠ k) :
    sweepStep cut (e :: acc) k = e :: sweepStep cut acc k := by
  unfold sweepStep
  rw [cacheMatch_cons_ne h]
  cases hm : cacheMatch acc k with
  | none => rfl
  | some r =>
    show (if isExpired cut r then cacheDelete (e :: acc) k else e :: acc) =
      e :: (if isExpired cut r then cacheDelete acc k else acc)
    by_cases hexp : isExpired cut r
    · rw [if_pos hexp, if_pos hexp]
      exact cacheDelete_cons_ne h
    · rw [if_neg hexp, if_neg hexp]

theorem foldl_sweepStep_cons (cut : Int) (e : String × Response) :
    ∀ (ks : List String) (acc : Partition), e.1 ∉ ks →
      ks.foldl (sweepStep cut) (e :: acc) = e :: ks.foldl (sweepStep cut) acc := by
  intro ks
  induction ks with
  | nil => intro acc _; rfl
  | cons k ks ih =>
    intro acc hmem
    simp only [List.mem_cons, not_or] at hmem
    simp only [List.foldl_cons]
    rw [sweepStep_cons_ne cut hmem.1]
    exact ih _ hmem.2

/-- On a partition with distinct keys, the age-sweep loop keeps exactly
the entries that are not expired. -/
theorem sweepAge_eq_filter (cut : Int) :
    ∀ (c : Partition), (c.map Prod.fst).Nodup →
      sweepAge cut c = c.filter (fun e => !(isExpired cut e.2)) := by
  intro c
  induction c with
  | nil => intro _; rfl
  | cons e c ih =>
    intro hnd
    simp only [List.map_cons, List.nodup_cons] at hnd
    show ((e :: c).map Prod.fst).foldl (sweepStep cut) (e :: c) = _
    simp only [List.map_cons, List.foldl_cons]
    have hstep : sweepStep cut (e :: c) e.1 =
        if isExpired cut e.2 then c else e :: c := by
      unfold sweepStep
      rw [cacheMatch_cons_self]
      show (if isExpired cut e.2 then cacheDelete (e :: c) e.1 else e :: c) = _
      by_cases hexp : isExpired cut e.2
      · rw [if_pos hexp, if_pos hexp]
        exact cacheDelete_cons_self hnd.1
      · rw [if_neg hexp, if_neg hexp]
    rw [hstep]
    by_cases hexp : isExpired cut e.2
    · rw [if_pos hexp]
      rw [List.filter_cons_of_neg (by simp [hexp])]
      exact ih hnd.2
    · rw [if_neg hexp]
      rw [foldl_sweepStep_cons cut e (c.map Prod.fst) c hnd.1]
      rw [List.filter_cons_of_pos (by simp [hexp])]
      exact congrArg (fun l => e :: l) (ih hnd.2)

/-! ### Concrete demonstration inputs -/

/-- A generic ok response used in concrete instances. -/
def demoResp : Response :=
  { ok := true, contentType := none, dateHeader := none, body := "data" }

/-- A partition holding exactly 50 distinct-key entries. -/
def demoPart50 : Partition :=
  (List.range 50).map (fun i => ("k" ++ toString i, demoResp))

/-- A partition holding exactly 51 distinct-key entries. -/
def demoPart51 : Partition :=
  (List.range 51).map (fun i => ("k" ++ toString i, demoResp))

/-- The empty store. -/
def emptyStore : Store := ⟨[], [], [], [], []⟩

/-! ### Claim C4: ordered first-match classification -/

/-- C4: every intercepted GET request is assigned exactly one resource
class, determined by testing the pattern groups in the fixed order
streaming-media, image, structured-data, external-host,
dynamic-document, first match winning (classify is a function into the
class enum, so the class is unique); a request matching no group falls
to the noMatch class, which the listener hands to the network-first
strategy. -/
theorem classifier_ordered_first_match (req : Request) :
    (classify req = .streamingMedia ↔
      NETWORK_FIRST_PATTERNS (req.pathname ++ req.search) = true) ∧
    (classify req = .image ↔
      (NETWORK_FIRST_PATTERNS (req.pathname ++ req.search) = false ∧
       IMAGE_CACHE_PATTERNS (req.pathname ++ req.search) = true)) ∧
    (classify req = .structuredData ↔
      (NETWORK_FIRST_PATTERNS (req.pathname ++ req.search) = false ∧
       IMAGE_CACHE_PATTERNS (req.pathname ++ req.search) = false ∧
       JSON_CACHE_PATTERNS req.pathname = true)) ∧
    (classify req = .externalAsset ↔
      (NETWORK_FIRST_PATTERNS (req.pathname ++ req.search) = false ∧
       IMAGE_CACHE_PATTERNS (req.pathname ++ req.search) = false ∧
       JSON_CACHE_PATTERNS req.pathname = false ∧
       EXTERNAL_CACHE_PATTERNS req.host = true)) ∧
    (classify req = .dynamicDocument ↔
      (NETWORK_FIRST_PATTERNS (req.pathname ++ req.search) = false ∧
       IMAGE_CACHE_PATTERNS (req.pathname ++ req.search) = false ∧
       JSON_CACHE_PATTERNS req.pathname = false ∧
       EXTERNAL_CACHE_PATTERNS req.host = false ∧
       DYNAMIC_CACHE_PATTERNS req.pathname = true)) ∧
    (classify req = .noMatch ↔
      (NETWORK_FIRST_PATTERNS (req.pathname ++ req.search) = false ∧
       IMAGE_CACHE_PATTERNS (req.pathname ++ req.search) = false ∧
       JSON_CACHE_PATTERNS req.pathname = false ∧
       EXTERNAL_CACHE_PATTERNS req.host = false ∧
       DYNAMIC_CACHE_PATTERNS req.pathname = false)) ∧
    routeOf ResourceClass.noMatch = Strategy.networkFirst := by
  unfold classify
  split_ifs <;> simp_all [routeOf]

/-! ### Claim C5: one entry over the limit means one eviction -/

/-- C5: on a partition with distinct keys holding exactly one entry
more than its configured limit, manageCacheSize removes exactly the
first (oldest) entry and leaves the count equal to the limit. -/
theorem eviction_removes_exactly_first (cacheName : String) (c : Partition)
    (hnd : (c.map Prod.fst).Nodup)
    (hlen : c.length = cacheLimit cacheName + 1) :
    manageCacheSize c cacheName = c.drop 1 ∧
    (manageCacheSize c cacheName).length = cacheLimit cacheName := by
  constructor
  · rw [manageCacheSize_eq_drop c cacheName hnd, hlen]
    congr 1
    omega
  · rw [length_manageCacheSize c cacheName hnd, hlen]
    omega

set_option maxRecDepth 16000 in
/-- Witness for C5 at the dynamic partition (limit 50) with 51 entries. -/
theorem eviction_removes_exactly_first_witness :
    (demoPart51.map Prod.fst).Nodup ∧
    demoPart51.length = cacheLimit CACHE_NAMES_DYNAMIC + 1 ∧
    (manageCacheSize demoPart51 CACHE_NAMES_DYNAMIC = demoPart51.drop 1 ∧
     (manageCacheSize demoPart51 CACHE_NAMES_DYNAMIC).length =
       cacheLimit CACHE_NAMES_DYNAMIC) :=
  ⟨by decide, by decide,
    eviction_removes_exactly_first CACHE_NAMES_DYNAMIC demoPart51
      (by decide) (by decide)⟩

/-! ### Claim C6: streaming media is network-first and write-free -/

/-- C6: a request matching a streaming-media (network-first) pattern is
classified streamingMedia and routed to the network-first strategy,
and whenever its fetch resolves the whole store is left untouched. -/
theorem streaming_network_first_write_free (net : Net) (s : Store)
    (req : Request) (r : Response)
    (hp : NETWORK_FIRST_PATTERNS (req.pathname ++ req.search) = true) :
    classify req = .streamingMedia ∧
    routeOf (classify req) = .networkFirst ∧
    (net req.url = .success r → (handleRequest net s req).store = s) := by
  have hc : classify req = .streamingMedia := by
    unfold classify
    rw [hp]
    rfl
  refine ⟨hc, by rw [hc]; rfl, ?_⟩
  intro hnet
  unfold handleRequest
  rw [hc]

/-- Concrete streaming request for the C6 witness. -/
def reqClip : Request :=
  { method := "GET", protocol := "https:", host := "example.com",
    pathname := "/v/clip.mp4", search := "", accept := none }

/-- Witness for C6: a concrete mp4 request over a resolving network
leaves the empty store unchanged. -/
theorem streaming_network_first_write_free_witness :
    classify reqClip = .streamingMedia ∧
    (handleRequest (fun _ => .success demoResp) emptyStore reqClip).store =
      emptyStore :=
  ⟨(streaming_network_first_write_free (fun _ => .success demoResp) emptyStore
      reqClip demoResp (by decide)).1,
   (streaming_network_first_write_free (fun _ => .success demoResp) emptyStore
      reqClip demoResp (by decide)).2.2 rfl⟩

/-! ### Claim C7: the seven-day age sweep -/

/-- C7: the age sweep of performPeriodicCleanup (run by
cleanupPartition over every partition of the store, with no reference
to any count limit) deletes every entry whose parsed date header is
older than the seven-day cutoff and retains every entry at or inside
the window; in particular an entry dated now minus eight days is
deleted and an entry dated now minus six days is retained. -/
theorem age_sweep_seven_days (now : Int) (c : Partition) (k : String)
    (r : Response) (hnd : (c.map Prod.fst).Nodup) (hmem : (k, r) ∈ c) :
    (∀ d, r.dateHeader = some d → d < now - 7 * 24 * 60 * 60 * 1000 →
      (k, r) ∉ sweepAge (now - 7 * 24 * 60 * 60 * 1000) c) ∧
    (∀ d, r.dateHeader = some d → now - 7 * 24 * 60 * 60 * 1000 ≤ d →
      (k, r) ∈ sweepAge (now - 7 * 24 * 60 * 60 * 1000) c) ∧
    (r.dateHeader = some (now - 8 * 24 * 60 * 60 * 1000) →
      (k, r) ∉ sweepAge (now - 7 * 24 * 60 * 60 * 1000) c) ∧
    (r.dateHeader = some (now - 6 * 24 * 60 * 60 * 1000) →
      (k, r) ∈ sweepAge (now - 7 * 24 * 60 * 60 * 1000) c) := by
  have hfil := sweepAge_eq_filter (now - 7 * 24 * 60 * 60 * 1000) c hnd
  have hdel : ∀ d, r.dateHeader = some d → d < now - 7 * 24 * 60 * 60 * 1000 →
      (k, r) ∉ sweepAge (now - 7 * 24 * 60 * 60 * 1000) c := by
    intro d hd hlt hin
    rw [hfil] at hin
    have := (List.mem_filter.mp hin).2
    simp [isExpired, hd] at this
    omega
  have hkeep : ∀ d, r.dateHeader = some d → now - 7 * 24 * 60 * 60 * 1000 ≤ d →
      (k, r) ∈ sweepAge (now - 7 * 24 * 60 * 60 * 1000) c := by
    intro d hd hge
    rw [hfil]
    refine List.mem_filter.mpr ⟨hmem, ?_⟩
    simp [isExpired, hd]
    omega
  refine ⟨hdel, hkeep, ?_, ?_⟩
  · intro hd
    exact hdel _ hd (by omega)
  · intro hd
    exact hkeep _ hd (by omega)

/-- A fixed demonstration clock value (milliseconds). -/
def wNow : Int := 1700000000000

/-- An entry captured eight days before the demonstration clock. -/
def respMinus8d : Response :=
  { ok := true, contentType := none,
    dateHeader := some (wNow - 8 * 24 * 60 * 60 * 1000), body := "old" }

/-- An entry captured six days before the demonstration clock. -/
def respMinus6d : Response :=
  { ok := true, contentType := none,
    dateHeader := some (wNow - 6 * 24 * 60 * 60 * 1000), body := "new" }

/-- A two-entry partition holding the old and the recent entry. -/
def agePart : Partition := [("old", respMinus8d), ("new", respMinus6d)]

/-- Witness for C7: the eight-day-old entry is swept, the six-day-old
entry survives. -/
theorem age_sweep_seven_days_witness :
    ("old", respMinus8d) ∉ sweepAge (wNow - 7 * 24 * 60 * 60 * 1000) agePart ∧
    ("new", respMinus6d) ∈ sweepAge (wNow - 7 * 24 * 60 * 60 * 1000) agePart :=
  ⟨(age_sweep_seven_days wNow agePart "old" respMinus8d (by decide)
      (by decide)).2.2.1 rfl,
   (age_sweep_seven_days wNow agePart "new" respMinus6d (by decide)
      (by decide)).2.2.2 rfl⟩

/-! ### Claim C10: entries without a date header are never swept -/

/-- C10: the age sweep never deletes an entry whose stored response
carries no (parseable) date header, whatever the cutoff: such an
entry is retained regardless of its true age. -/
theorem age_sweep_keeps_dateless (cut : Int) (c : Partition) (k : String)
    (r : Response) (hnd : (c.map Prod.fst).Nodup) (hmem : (k, r) ∈ c)
    (hd : r.dateHeader = none) : (k, r) ∈ sweepAge cut c := by
  rw [sweepAge_eq_filter cut c hnd]
  exact List.mem_filter.mpr ⟨hmem, by simp [isExpired, hd]⟩

/-- A response with no date header. -/
def respNoDate : Response :=
  { ok := true, contentType := none, dateHeader := none, body := "no date" }

/-- Witness for C10: a dateless entry survives a sweep with an
arbitrarily late cutoff. -/
theorem age_sweep_keeps_dateless_witness :
    ("x", respNoDate) ∈ sweepAge 99999999999999 [("x", respNoDate)] :=
  age_sweep_keeps_dateless 99999999999999 [("x", respNoDate)] "x" respNoDate
    (by decide) (by decide) rfl

/-! ### Claim C1: stale-while-revalidate on network failure, no stale entry -/

/-- Concrete JSON request used for the C1 instances. -/
def reqJson : Request :=
  { method := "GET", protocol := "https:", host := "example.com",
    pathname := "/data/master_show.json", search := "", accept := none }

/-- C1 counterexample: with no cached entry and a rejecting fetch, the
stale-while-revalidate strategy does broadcast CACHE_ERROR, but its
promise resolves with the JS value undefined (the returned
cachedResponse of the catch handler) instead of rejecting, so the
failure does not propagate as the claim states. -/
theorem swr_failure_resolves_undefined_cex :
    (staleWhileRevalidateStrategy (fun _ => .failure "Failed to fetch") []
      reqJson CACHE_NAMES_JSON).outcome = .noResponse ∧
    (staleWhileRevalidateStrategy (fun _ => .failure "Failed to fetch") []
      reqJson CACHE_NAMES_JSON).msgs =
      [⟨"CACHE_ERROR", "Failed to fetch", some reqJson.url⟩] ∧
    Outcome.noResponse.isRejected = false := by decide

/-- C1 amended: for every request handled by stale-while-revalidate
with no cached (stale) entry, when the network fetch fails the
strategy broadcasts a cache-error event and the returned promise
resolves with undefined (no response value); the failure is not
propagated as a rejection, and the partition is unchanged. -/
theorem swr_failure_no_cache (net : Net) (c : Partition) (req : Request)
    (cacheName : String) (m : String)
    (hc : cacheMatch c req.url = none) (hn : net req.url = .failure m) :
    staleWhileRevalidateStrategy net c req cacheName =
      ⟨.noResponse, c, [⟨"CACHE_ERROR", m, some req.url⟩]⟩ := by
  simp [staleWhileRevalidateStrategy, hc, hn]

/-- Witness for the amended C1 at a concrete request and offline
network. -/
theorem swr_failure_no_cache_witness :
    staleWhileRevalidateStrategy (fun _ => .failure "offline") [] reqJson
      CACHE_NAMES_JSON =
      ⟨.noResponse, [], [⟨"CACHE_ERROR", "offline", some reqJson.url⟩]⟩ :=
  swr_failure_no_cache (fun _ => .failure "offline") [] reqJson
    CACHE_NAMES_JSON "offline" rfl rfl

/-! ### Claim C2: which writes run an eviction pass -/

/-- A store whose dynamic partition already holds exactly its limit of
50 entries. -/
def store50 : Store := ⟨[], demoPart50, [], [], []⟩

set_option maxRecDepth 16000 in
/-- C2 counterexample: a successful prefetch write into the dynamic
partition leaves it at 51 entries, above its configured limit of 50,
and no entry is deleted — prefetch writes run no eviction pass, so
the claim fails as stated. -/
theorem prefetch_write_skips_eviction_cex :
    cacheLimit CACHE_NAMES_DYNAMIC = 50 ∧
    ((handlePrefetchResources (fun _ => .success demoResp) store50
      ["https://example.com/extra-page"]).1).dynPart.length = 51 := by
  constructor
  · decide
  · decide

/-- C2 amended: the cache-first primary path (a miss followed by an ok
fetch) and every successful stale-while-revalidate refresh — whether
it stores a first entry or replaces an existing one — follow the
write with an eviction pass that deletes entries oldest-first down to
the configured limit; the background-refresh (updateInBackground) and
prefetch writes store the bare cache.put result and run no eviction
pass, so they can leave the count above the limit. -/
theorem primary_writes_evict (net : Net) (c : Partition) (req : Request)
    (cacheName : String) (r : Response)
    (hnd : (c.map Prod.fst).Nodup)
    (hn : net req.url = .success r) (hok : r.ok = true) :
    (cacheMatch c req.url = none →
      (cacheFirstStrategy net c req cacheName).part =
        (cachePut c req.url r).drop
          ((cachePut c req.url r).length - cacheLimit cacheName) ∧
      (cacheFirstStrategy net c req cacheName).part.length =
        min (cachePut c req.url r).length (cacheLimit cacheName)) ∧
    ((staleWhileRevalidateStrategy net c req cacheName).part =
      (cachePut c req.url r).drop
        ((cachePut c req.url r).length - cacheLimit cacheName) ∧
     (staleWhileRevalidateStrategy net c req cacheName).part.length =
      min (cachePut c req.url r).length (cacheLimit cacheName)) ∧
    (updateInBackground net c req.url).1 = cachePut c req.url r ∧
    (∀ s : Store, IMAGE_CACHE_PATTERNS req.url = false →
      JSON_CACHE_PATTERNS req.url = false →
      (prefetchOne net s req.url).dynPart = cachePut s.dynPart req.url r) := by
  have hnd' := keys_nodup_cachePut (c := c) req.url r hnd
  have hdrop := manageCacheSize_eq_drop (cachePut c req.url r) cacheName hnd'
  have hlen := length_manageCacheSize (cachePut c req.url r) cacheName hnd'
  refine ⟨?_, ?_, ?_, ?_⟩
  · intro hc
    have hcf : (cacheFirstStrategy net c req cacheName).part =
        manageCacheSize (cachePut c req.url r) cacheName := by
      simp [cacheFirstStrategy, hc, hn, hok]
    exact ⟨hcf.trans hdrop, hcf ▸ hlen⟩
  · have hswr : (staleWhileRevalidateStrategy net c req cacheName).part =
        manageCacheSize (cachePut c req.url r) cacheName := by
      cases hcm : cacheMatch c req.url <;>
        simp [staleWhileRevalidateStrategy, hcm, hn, hok]
    exact ⟨hswr.trans hdrop, hswr ▸ hlen⟩
  · simp [updateInBackground, hn, hok]
  · intro s hi hj
    simp [prefetchOne, hn, hok, hi, hj]

/-- Concrete dynamic-document request for the C2 witness. -/
def reqPage : Request :=
  { method := "GET", protocol := "https:", host := "example.com",
    pathname := "/telugu.html", search := "", accept := some "text/html" }

/-- A dynamic partition already holding an entry for that request. -/
def partWithPage : Partition := [(reqPage.url, demoResp)]

/-- Witness for the amended C2: the cache-first primary path writes
into an empty partition with an eviction pass; a stale-while-
revalidate refresh replacing the existing entry also runs one; the
background refresh stores the bare put result, as does a prefetch of
the same URL into the 50-entry dynamic partition (leaving 51). -/
theorem primary_writes_evict_witness :
    (cacheFirstStrategy (fun _ => .success demoResp) [] reqPage
        CACHE_NAMES_DYNAMIC).part.length =
      min (cachePut [] reqPage.url demoResp).length
        (cacheLimit CACHE_NAMES_DYNAMIC) ∧
    (staleWhileRevalidateStrategy (fun _ => .success demoResp) partWithPage
        reqPage CACHE_NAMES_DYNAMIC).part.length =
      min (cachePut partWithPage reqPage.url demoResp).length
        (cacheLimit CACHE_NAMES_DYNAMIC) ∧
    (updateInBackground (fun _ => .success demoResp) partWithPage
        reqPage.url).1 = cachePut partWithPage reqPage.url demoResp ∧
    (prefetchOne (fun _ => .success demoResp) store50 reqPage.url).dynPart =
      cachePut store50.dynPart reqPage.url demoResp :=
  ⟨((primary_writes_evict (fun _ => .success demoResp) [] reqPage
      CACHE_NAMES_DYNAMIC demoResp (by decide) rfl rfl).1 rfl).2,
   (primary_writes_evict (fun _ => .success demoResp) partWithPage reqPage
      CACHE_NAMES_DYNAMIC demoResp (by decide) rfl rfl).2.1.2,
   (primary_writes_evict (fun _ => .success demoResp) partWithPage reqPage
      CACHE_NAMES_DYNAMIC demoResp (by decide) rfl rfl).2.2.1,
   (primary_writes_evict (fun _ => .success demoResp) partWithPage reqPage
      CACHE_NAMES_DYNAMIC demoResp (by decide) rfl rfl).2.2.2 store50
      (by decide) (by decide)⟩

/-! ### Claim C3: network-first fallback behaviour -/

/-- A non-ok (status 500 class) response. -/
def resp500 : Response :=
  { ok := false, contentType := none, dateHeader := none,
    body := "Internal Server Error" }

/-- A previously cached dynamic-partition entry. -/
def respCached : Response :=
  { ok := true, contentType := some "text/html", dateHeader := none,
    body := "cached page" }

/-- Concrete dynamic page request used for the C3 instances. -/
def reqPage3 : Request :=
  { method := "GET", protocol := "https:", host := "example.com",
    pathname := "/page", search := "", accept := some "text/html" }

/-- C3 counterexample: a fetch that resolves with a non-ok status — a
NetworkFailure by the claim taxonomy — is returned to the caller
unmodified: no Dynamic-partition fallback is consulted and no
offline-fallback event is broadcast, although a cached entry exists. -/
theorem network_first_non_ok_no_fallback_cex :
    resp500.ok = false ∧
    cacheMatch [(reqPage3.url, respCached)] reqPage3.url = some respCached ∧
    networkFirstStrategy (fun _ => .success resp500)
      [(reqPage3.url, respCached)] reqPage3 = (.response resp500, []) ∧
    resp500 ≠ respCached := by decide

/-- C3 amended: the network-first strategy falls back to the Dynamic
partition only when the fetch rejects: a stored entry is then returned
with an offline-fallback broadcast, an HTML-accepting request without
one gets the synthesized offline document, and otherwise the failure
propagates; a fetch that resolves — ok or not — is returned unmodified
with no fallback. -/
theorem network_first_fallback_on_rejection (net : Net)
    (dynPart : Partition) (req : Request) (m : String) (r cr : Response) :
    (net req.url = .success r →
      networkFirstStrategy net dynPart req = (.response r, [])) ∧
    (net req.url = .failure m → cacheMatch dynPart req.url = some cr →
      networkFirstStrategy net dynPart req =
        (.response cr,
          [⟨"OFFLINE_FALLBACK", "Serving cached version", some req.url⟩])) ∧
    (net req.url = .failure m → cacheMatch dynPart req.url = none →
      acceptsHtml req = true →
      networkFirstStrategy net dynPart req = (.response offlineHtmlPage, [])) ∧
    (net req.url = .failure m → cacheMatch dynPart req.url = none →
      acceptsHtml req = false →
      networkFirstStrategy net dynPart req = (.rejected m, [])) := by
  refine ⟨?_, ?_, ?_, ?_⟩ <;> intros <;> simp [networkFirstStrategy, *]

/-- Witness for the amended C3: with a rejecting fetch and a cached
dynamic entry, the entry is served and OFFLINE_FALLBACK broadcast. -/
theorem network_first_fallback_on_rejection_witness :
    networkFirstStrategy (fun _ => .failure "offline")
      [(reqPage3.url, respCached)] reqPage3 =
      (.response respCached,
        [⟨"OFFLINE_FALLBACK", "Serving cached version", some reqPage3.url⟩]) :=
  (network_first_fallback_on_rejection (fun _ => .failure "offline")
    [(reqPage3.url, respCached)] reqPage3 "offline" demoResp respCached).2.1
    rfl (by decide)

/-! ### Claim C8: placeholder fallback of the cache-first strategy -/

/-- Concrete external-asset request whose full URL contains the
substring placeholder only inside its hostname. -/
def reqFont : Request :=
  { method := "GET", protocol := "https:",
    host := "placeholder.fonts.gstatic.com", pathname := "/font.woff2",
    search := "", accept := none }

set_option maxRecDepth 16000 in
/-- C8 counterexample: this request is classified externalAsset, so
cache-first on the fonts partition handles it; yet on fetch rejection
with no cached entry the catch block, which tests the image patterns
against the full URL, finds the substring placeholder in the hostname
and returns the svg placeholder — the failure does not propagate for
this non-image-class request, contradicting the claim. -/
theorem cache_first_non_image_placeholder_cex :
    classify reqFont = .externalAsset ∧
    (cacheFirstStrategy (fun _ => .failure "net down") [] reqFont
      CACHE_NAMES_FONTS).outcome = .response placeholderImage ∧
    (cacheFirstStrategy (fun _ => .failure "net down") [] reqFont
      CACHE_NAMES_FONTS).outcome.isRejected = false := by decide

/-- C8 amended: with no cached entry and a rejecting fetch,
cache-first returns the synthesized svg placeholder (content-type
image/svg+xml) whenever the full request URL matches an image pattern
— which is implied by the request being classified Image — and
propagates the failure (after the CACHE_ERROR broadcast) exactly when
the full URL matches no image pattern; a non-image-class request whose
URL happens to match an image pattern therefore also receives the
placeholder. -/
theorem cache_first_failure_placeholder (net : Net) (c : Partition)
    (req : Request) (cacheName : String) (m : String)
    (hc : cacheMatch c req.url = none) (hn : net req.url = .failure m) :
    (classify req = .image → IMAGE_CACHE_PATTERNS req.url = true) ∧
    (IMAGE_CACHE_PATTERNS req.url = true →
      cacheFirstStrategy net c req cacheName =
        ⟨.response placeholderImage, c, [⟨"CACHE_ERROR", m, some req.url⟩]⟩) ∧
    (IMAGE_CACHE_PATTERNS req.url = false →
      cacheFirstStrategy net c req cacheName =
        ⟨.rejected m, c, [⟨"CACHE_ERROR", m, some req.url⟩]⟩) ∧
    placeholderImage.contentType = some "image/svg+xml" := by
  refine ⟨?_, ?_, ?_, rfl⟩
  · intro hcl
    have himg : IMAGE_CACHE_PATTERNS (req.pathname ++ req.search) = true := by
      unfold classify at hcl
      split_ifs at hcl <;> simp_all
    exact IMAGE_CACHE_PATTERNS_url_of_pathSearch req himg
  · intro hi
    simp [cacheFirstStrategy, hc, hn, hi]
  · intro hi
    simp [cacheFirstStrategy, hc, hn, hi]

/-- Concrete image request for the C8 witness. -/
def reqImg : Request :=
  { method := "GET", protocol := "https:", host := "example.com",
    pathname := "/poster.jpg", search := "", accept := none }

/-- Witness for the amended C8: an offline image request with an empty
partition receives the svg placeholder. -/
theorem cache_first_failure_placeholder_witness :
    cacheFirstStrategy (fun _ => .failure "offline") [] reqImg
      CACHE_NAMES_IMAGES =
      ⟨.response placeholderImage, [],
        [⟨"CACHE_ERROR", "offline", some reqImg.url⟩]⟩ ∧
    placeholderImage.contentType = some "image/svg+xml" :=
  ⟨(cache_first_failure_placeholder (fun _ => .failure "offline") [] reqImg
      CACHE_NAMES_IMAGES "offline" rfl rfl).2.1 (by decide),
   (cache_first_failure_placeholder (fun _ => .failure "offline") [] reqImg
      CACHE_NAMES_IMAGES "offline" rfl rfl).2.2.2⟩

/-! ### Claim C9: extension tests see the query string -/

/-- A png path whose query string ends in a different image extension. -/
def reqPngQueryExt : Request :=
  { method := "GET", protocol := "https:", host := "example.com",
    pathname := "/photo.png", search := "?img=.jpg", accept := none }

/-- A json path whose query string contains the substring video. -/
def reqJsonQueryVideo : Request :=
  { method := "GET", protocol := "https:", host := "example.com",
    pathname := "/data.json", search := "?video=1", accept := none }

/-- C9 counterexample: both directions of the claim fail on concrete
inputs.  A pathname ending in .png with a non-empty query matching
neither semantic image hint is still classified Image when the query
itself ends in an image extension (the end-anchored pattern sees
pathname plus query); and a .json pathname with a query is not
classified structured data when the query matches an earlier group
(here the streaming pattern video). -/
theorem classifier_query_extension_cex :
    (strEndsWith (lowerStr reqPngQueryExt.pathname) ".png" = true ∧
     reqPngQueryExt.search ≠ "" ∧
     strContains (reqPngQueryExt.pathname ++ reqPngQueryExt.search)
       "share_image_url" = false ∧
     strContains (reqPngQueryExt.pathname ++ reqPngQueryExt.search)
       "placeholder" = false ∧
     classify reqPngQueryExt = .image) ∧
    (strEndsWith reqJsonQueryVideo.pathname ".json" = true ∧
     reqJsonQueryVideo.search ≠ "" ∧
     classify reqJsonQueryVideo = .streamingMedia) := by decide

/-- C9 amended: a GET request whose pathname ends in an image
extension but whose pathname-plus-query matches no image pattern (in
particular the query is non-empty and does not itself end in an image
extension nor contain a semantic hint) is not classified Image; and a
pathname matching the JSON patterns is classified structured data
provided pathname-plus-query matches no earlier (streaming or image)
group, since the JSON test reads the pathname alone. -/
theorem classifier_query_extension (req : Request) :
    (imageExtTest req.pathname = true → req.search ≠ "" →
      IMAGE_CACHE_PATTERNS (req.pathname ++ req.search) = false →
      classify req ≠ .image) ∧
    (JSON_CACHE_PATTERNS req.pathname = true →
      NETWORK_FIRST_PATTERNS (req.pathname ++ req.search) = false →
      IMAGE_CACHE_PATTERNS (req.pathname ++ req.search) = false →
      classify req = .structuredData) := by
  constructor
  · intro _ _ hni hcl
    unfold classify at hcl
    split_ifs at hcl <;> simp_all
  · intro hj hns hni
    simp [classify, hj, hns, hni]

/-- A png path with a plain version query. -/
def reqPngQueryPlain : Request :=
  { method := "GET", protocol := "https:", host := "example.com",
    pathname := "/photo.png", search := "?v=2", accept := none }

/-- A json path with a plain query. -/
def reqJsonQueryPlain : Request :=
  { method := "GET", protocol := "https:", host := "example.com",
    pathname := "/data.json", search := "?x=1", accept := none }

/-- Witness for the amended C9 at two concrete requests. -/
theorem classifier_query_extension_witness :
    classify reqPngQueryPlain ≠ .image ∧
    classify reqJsonQueryPlain = .structuredData :=
  ⟨(classifier_query_extension reqPngQueryPlain).1 (by decide) (by decide)
      (by decide),
   (classifier_query_extension reqJsonQueryPlain).2 (by decide) (by decide)
      (by decide)⟩
